import Mathlib

set_option maxRecDepth 8000

/-!
Verification development for the cycle-counter repository.

This file gives a shallow embedding of the two source files:
* `src/cyccnt/cyccnt.c` — a kernel module that enables (and later disables)
  user-mode access to the CPU cycle counter, with an aarch64 variant and a
  riscv64 variant; it is modelled as traces of privileged register writes
  (plus the SBI firmware call on RISC-V) and as functions on register states.
* `src/test_cycle.c` — a benchmark driver that measures integer
  multiplication latency via the cycle counter; its multiplication chains,
  measurement loop, sorting/median reduction, output and argument handling
  are modelled as executable Lean functions over `Nat` (with explicit
  `% 2^32` / `% 2^64` where the C code uses fixed-width arithmetic).
-/

/-! ## Model of `src/cyccnt/cyccnt.c` -/

/-- The Linux `BIT(n)` macro. -/
def BIT (n : Nat) : Nat := 2 ^ n

/-- The value written back to PMCR_EL0 by `enable_counter` (aarch64),
from the source line `x |= BIT(0) | BIT(2);` applied to the value `x`
previously read from PMCR_EL0.  The register is an `unsigned long`
(64 bits); the bitwise-or cannot overflow. -/
def pmcr_update (x : Nat) : Nat := x ||| (BIT 0 ||| BIT 2)

/-- The PMCR_EL0 update documented in the comment of `enable_counter`
(and in the spec): set LC (bit 6), clear DP (bit 5), clear D (bit 3),
set C (bit 2), set E (bit 0), preserving all other bits. -/
def pmcr_update_documented (x : Nat) : Nat :=
  (x ||| (BIT 6 ||| BIT 2 ||| BIT 0)) &&& ((2 ^ 64 - 1) ^^^ (BIT 5 ||| BIT 3))

/-- The system registers touched by the aarch64 part of the module. -/
inductive AReg where
  | pmintenclr_el1
  | pmcntenset_el0
  | pmuserenr_el0
  | pmcr_el0
  | pmccfiltr_el0
deriving DecidableEq, Repr

/-- One instruction-level event of the aarch64 enable/disable sequences:
a system-register write (`msr`), a system-register read (`mrs`), or an
instruction synchronization barrier (`isb`). -/
inductive AEvent where
  | msr (r : AReg) (v : Nat)
  | mrs (r : AReg)
  | isb
deriving DecidableEq, Repr

/-- The event trace of `enable_counter` on aarch64, given the value
`pmcr0` read from PMCR_EL0 by the `mrs` instruction. -/
def aarch64_enable_trace (pmcr0 : Nat) : List AEvent :=
  [ .msr .pmintenclr_el1 (BIT 31),
    .msr .pmcntenset_el0 (BIT 31),
    .msr .pmuserenr_el0 (BIT 0 ||| BIT 2 ||| BIT 6),
    .mrs .pmcr_el0,
    .isb,
    .msr .pmcr_el0 (pmcr_update pmcr0),
    .msr .pmccfiltr_el0 (BIT 27) ]

/-- The event trace of `disable_counter` on aarch64. -/
def aarch64_disable_trace : List AEvent :=
  [ .msr .pmcntenset_el0 0,
    .msr .pmuserenr_el0 0 ]

/-- Write-level state of the aarch64 registers the module touches: each
field holds the value last written to the corresponding register. -/
structure AArchRegs where
  pmintenclr_el1 : Nat
  pmcntenset_el0 : Nat
  pmuserenr_el0 : Nat
  pmcr_el0 : Nat
  pmccfiltr_el0 : Nat
deriving DecidableEq, Repr

/-- Effect of one aarch64 event on the register state. -/
def applyAEvent (s : AArchRegs) : AEvent → AArchRegs
  | .msr .pmintenclr_el1 v => { s with pmintenclr_el1 := v }
  | .msr .pmcntenset_el0 v => { s with pmcntenset_el0 := v }
  | .msr .pmuserenr_el0 v => { s with pmuserenr_el0 := v }
  | .msr .pmcr_el0 v => { s with pmcr_el0 := v }
  | .msr .pmccfiltr_el0 v => { s with pmccfiltr_el0 := v }
  | .mrs _ => s
  | .isb => s

/-- State effect of `enable_counter` on aarch64 (the `mrs` reads the
current PMCR_EL0 value of the state). -/
def aarch64_enable (s : AArchRegs) : AArchRegs :=
  (aarch64_enable_trace s.pmcr_el0).foldl applyAEvent s

/-- State effect of `disable_counter` on aarch64. -/
def aarch64_disable (s : AArchRegs) : AArchRegs :=
  aarch64_disable_trace.foldl applyAEvent s

/-- SBI extension identifier for the performance-monitoring unit
(`SBI_EXT_PMU`, ASCII "PMU"), from the Linux/SBI headers used by the
source. -/
def SBI_EXT_PMU : Nat := 0x504D55

/-- `SBI_EXT_PMU_COUNTER_START` function identifier. -/
def SBI_EXT_PMU_COUNTER_START : Nat := 1

/-- `SBI_PMU_START_FLAG_SET_INIT_VALUE`: start the counter and reset it
to the supplied initial value. -/
def SBI_PMU_START_FLAG_SET_INIT_VALUE : Nat := 1

/-- CSR number of `scounteren`. -/
def CSR_SCOUNTEREN : Nat := 0x106

/-- One event of the riscv64 enable/disable sequences: the SBI firmware
call, the `printk` logging the SBI return value, or a CSR write. -/
inductive REvent where
  | sbiCall (ext fid a0 a1 a2 a3 a4 a5 : Nat)
  | logSbiRet (err val : Int)
  | csrWrite (csr v : Nat)
deriving DecidableEq, Repr

/-- Recognizes SBI firmware calls in a riscv64 event trace. -/
def isSbiCall : REvent → Bool
  | .sbiCall .. => true
  | _ => false

/-- The event trace of `enable_counter` on riscv64, given the
`struct sbiret` result `r = (error, value)` returned by the firmware:
the SBI request to start counter 0 with the re-initialization flag, the
`printk` of the returned codes, then the write of `GENMASK(31,0)` to
`scounteren`.  The trace is the same for every `r`. -/
def riscv_enable_trace (r : Int × Int) : List REvent :=
  [ .sbiCall SBI_EXT_PMU SBI_EXT_PMU_COUNTER_START
      0 1 SBI_PMU_START_FLAG_SET_INIT_VALUE 0 0 0,
    .logSbiRet r.1 r.2,
    .csrWrite CSR_SCOUNTEREN (2 ^ 32 - 1) ]

/-- The event trace of `disable_counter` on riscv64: write `0x2` (the
fixed-rate-timer bit only) to `scounteren`. -/
def riscv_disable_trace : List REvent :=
  [ .csrWrite CSR_SCOUNTEREN 0x2 ]

/-- Write-level state of the riscv64 registers the module touches. -/
structure RiscvRegs where
  scounteren : Nat
deriving DecidableEq, Repr

/-- Effect of one riscv64 event on the register state (the SBI call and
the log line do not touch supervisor CSRs). -/
def applyREvent (s : RiscvRegs) : REvent → RiscvRegs
  | .csrWrite c v => if c = CSR_SCOUNTEREN then { s with scounteren := v } else s
  | _ => s

/-- State effect of `enable_counter` on riscv64, given the SBI result. -/
def riscv_enable (r : Int × Int) (s : RiscvRegs) : RiscvRegs :=
  (riscv_enable_trace r).foldl applyREvent s

/-- State effect of `disable_counter` on riscv64. -/
def riscv_disable (s : RiscvRegs) : RiscvRegs :=
  riscv_disable_trace.foldl applyREvent s

/-! ## Model of `src/test_cycle.c` -/

/-- Modulus of `uint32_t` arithmetic. -/
def M32 : Nat := 2 ^ 32

/-- Modulus of `uint64_t` arithmetic. -/
def M64 : Nat := 2 ^ 64

/-- `uint32_t` multiplication. -/
def mul32 (a b : Nat) : Nat := a * b % M32

/-- `uint64_t` multiplication. -/
def mul64 (a b : Nat) : Nat := a * b % M64

/-- High 64-bit half of the 128-bit product of two `uint64_t` values:
`((unsigned __int128)a * b) >> 64`. -/
def hi64 (a b : Nat) : Nat := a * b / M64

/-- One statement pair `x32 *= y32; y32 *= x32;` of the 32-bit
measurement chain, acting on the state `(x32, y32)`.  Each inner-loop
iteration of the source performs 10 such pairs (20 multiplications), so
the whole 32-bit workload performs `120 * 1000 * 10` pairs. -/
def step32 (p : Nat × Nat) : Nat × Nat :=
  let x := mul32 p.1 p.2
  (x, mul32 p.2 x)

/-- One statement pair `x64 *= y64; y64 *= x64;` of the 64-bit chain. -/
def step64 (p : Nat × Nat) : Nat × Nat :=
  let x := mul64 p.1 p.2
  (x, mul64 p.2 x)

/-- One statement pair of the 128-bit-producing chain:
`x64 = hi(x64*y64); y64 = hi(y64*x64);`. -/
def stepHi (p : Nat × Nat) : Nat × Nat :=
  let x := hi64 p.1 p.2
  (x, hi64 p.2 x)

/-- Warm-up of the 32-bit workload: `x32 = (uint32_t)st; y32 = x32;`
then 100 iterations of `y32 *= x32;`, then `x32 = y32;`.  Returns the
state `(x32, y32)` at entry of the measurement loop, given the seed. -/
def warm32 (s : Nat) : Nat × Nat :=
  let x := s % M32
  let y := (fun yy => mul32 yy x)^[100] x
  (y, y)

/-- State `(x32, y32)` of the 32-bit chain after `n` statement pairs of
the measurement loop (the chain runs on across outer iterations; the
counter reads do not touch it). -/
def steps32 (s n : Nat) : Nat × Nat := step32^[n] (warm32 s)

/-- Entry state of the 64-bit chain, from the final 32-bit chain state
`p` (the whole 32-bit workload runs 120 outer × 1000 inner iterations ×
10 pairs, so `p = steps32 s 1200000`): `x64 = (uint64_t)x32;`
`x64 *= x64 * x64;` `y64 = x64;`. -/
def warm64 (p : Nat × Nat) : Nat × Nat :=
  let x := mul64 p.1 (mul64 p.1 p.1)
  (x, x)

/-- State `(x64, y64)` of the 64-bit chain after `n` statement pairs of
its measurement loop, for the given seed. -/
def steps64 (s n : Nat) : Nat × Nat := step64^[n] (warm64 (steps32 s 1200000))

/-- State of the 64-bit chain after the whole 64-bit workload. -/
def final64 (s : Nat) : Nat × Nat := steps64 s 1200000

/-- Entry state of the 128-bit-producing workload:
`t64 = (uint64_t)((y64 >> 1) != 0) << 63; x64 |= t64; y64 |= t64;`.
The resulting pair is also saved as `(x64orig, y64orig)`. -/
def entry128 (s : Nat) : Nat × Nat :=
  let p := final64 s
  let t := if p.2 / 2 ≠ 0 then 2 ^ 63 else 0
  (p.1 ||| t, p.2 ||| t)

/-- One inner-loop iteration of the 128-bit-producing workload:
`x64 ^= x64orig; y64 ^= y64orig;` followed by 4 statement pairs of
high-half multiplications (8 multiplications). -/
def iter128 (xo yo : Nat) (p : Nat × Nat) : Nat × Nat :=
  stepHi^[4] (p.1 ^^^ xo, p.2 ^^^ yo)

/-- The ten intermediate chain values produced inside one inner-loop
iteration of the 128-bit-producing workload, in statement order: the two
values after the XOR re-masking, then the value after each of the eight
high-half multiplications. -/
def iterVals128 (xo yo : Nat) (p : Nat × Nat) : List Nat :=
  let x0 := p.1 ^^^ xo
  let y0 := p.2 ^^^ yo
  let x1 := hi64 x0 y0
  let y1 := hi64 y0 x1
  let x2 := hi64 x1 y1
  let y2 := hi64 y1 x2
  let x3 := hi64 x2 y2
  let y3 := hi64 y2 x3
  let x4 := hi64 x3 y3
  let y4 := hi64 y3 x4
  [x0, y0, x1, y1, x2, y2, x3, y3, x4, y4]

/-- State `(x64, y64)` of the 128-bit-producing chain after `n` inner
iterations, for the given seed. -/
def steps128 (s n : Nat) : Nat × Nat :=
  (iter128 (entry128 s).1 (entry128 s).2)^[n] (entry128 s)

/-- State of the chain after the whole 128-bit-producing workload
(120 outer × 1000 inner iterations). -/
def fin128 (s : Nat) : Nat × Nat := steps128 s 120000

/-- The sample comparator `cmp_u64` passed to `qsort`, on the pointed-to
values. -/
def cmp_u64 (a b : Nat) : Int :=
  if a < b then -1 else if a = b then 0 else 1

/-- `qsort(tt, 100, sizeof(uint64_t), &cmp_u64)`: the C standard library
sort with a valid three-way comparator, modelled as sorting in
nondecreasing order (the unique reordering that is sorted with respect
to `cmp_u64`). -/
def sortSamples (l : List Nat) : List Nat := List.insertionSort (· ≤ ·) l

/-- One outer iteration `i` of a measurement loop, acting on the sample
buffer `tt`: `if (i >= 20) { tt[i - 20] = delta i; }`, where `delta i`
is the counter delta `end - begin` observed on iteration `i`. -/
def measureStep (delta : Nat → Nat) (tt : List Nat) (i : Nat) : List Nat :=
  if 20 ≤ i then tt.set (i - 20) (delta i) else tt

/-- The full measurement loop `for (i = 0; i < 120; i++)` over the
100-entry sample buffer `uint64_t tt[100]`. -/
def measureLoop (delta : Nat → Nat) : List Nat :=
  (List.range 120).foldl (measureStep delta) (List.replicate 100 0)

/-- The reduction of one workload's samples to the representative total
cost: sort the buffer and read `tt[50]`. -/
def harness (delta : Nat → Nat) : Nat :=
  (sortSamples (measureLoop delta)).getD 50 0

/-- The final byte extraction of `main`: `x = 0;` then 8 times
`x ^= (unsigned)x64; x64 >>= 8;` (with `x` a 32-bit `unsigned`),
followed by the printed value `x & 0xFF`. -/
def byteFold (v : Nat) : Nat :=
  ((List.range 8).foldl
      (fun (p : Nat × Nat) _ => (p.1 ^^^ p.2 % M32, p.2 / 2 ^ 8)) (0, v)).1
    &&& 0xFF

/-- One line printed by the driver on standard output: a labelled
cycles-per-operation result (printed by `printf("%s %7.3f\n", ...)`-style
formatting with three decimal places), or the final parenthesized byte
`printf("(%u)\n", x & 0xFF)`. -/
inductive OutLine where
  | result (label : String) (value : ℚ)
  | byteline (b : Nat)
deriving DecidableEq

/-- Observable outcome of one driver run: standard output lines,
standard error lines, and the exit status. -/
structure DriverOut where
  out : List OutLine
  err : List String
  exitCode : Nat
deriving DecidableEq

/-- The usage line printed on argument-count misuse. -/
def usageMsg : String := "usage: test_cycle [ 0 | 1 | 3 ]"

/-- The driver `main`, parameterized by `argv` (including the program
name, so `argv.length = argc`), by the libc `atoi` (an external
collaborator, passed as the function `parse`), and by the per-workload
counter-delta oracles `d1 d2 d3` (outer iteration ↦ observed
`end - begin` delta), which stand for the hardware counter reads. -/
def runDriver (argv : List String) (parse : String → Int)
    (d1 d2 d3 : Nat → Nat) : DriverOut :=
  if argv.length ≠ 2 then
    { out := [], err := [usageMsg], exitCode := 1 }
  else
    let st : Int := parse (argv.getD 1 "")
    let s : Nat := (st % (2 ^ 32 : Int)).toNat
    let m1 := harness d1
    let m2 := harness d2
    let m3 := harness d3
    let b := byteFold (fin128 s).1
    { out := [OutLine.result "32x32->32 muls:" ((m1 : ℚ) / 20000),
              OutLine.result "64x64->64 muls:" ((m2 : ℚ) / 20000),
              OutLine.result "64x64->128 muls:" ((m3 : ℚ) / 8000),
              OutLine.byteline b],
      err := [], exitCode := 0 }

/-! ## Helper lemmas -/

/-- The printed byte is at most 255, since the code masks with `& 0xFF`. -/
theorem byteFold_le (v : Nat) : byteFold v ≤ 255 := Nat.and_le_right

/-! ## Claims -/

/-- Claim C1, evidence of the code bug: the claim (and the function's own
comment) require the value written back to PMCR_EL0 to have bit 6 (LC)
set and bits 5 (DP) and 3 (D) cleared, besides setting bits 2 and 0; the
code (`x |= BIT(0) | BIT(2);`) only sets bits 0 and 2.  At the failing
input `v = 0` the code writes `0x5` (bit 6 clear) where the documented
update writes `0x45`; at `v = 0x28` the code writes `0x2D` (bits 5 and 3
still set) where the documented update writes `0x45`. -/
theorem claim1_pmcr_code_at_failing_input :
    pmcr_update 0 = 0x5 ∧
    Nat.testBit (pmcr_update 0) 6 = false ∧
    pmcr_update_documented 0 = 0x45 ∧
    Nat.testBit (pmcr_update_documented 0) 6 = true ∧
    pmcr_update 0x28 = 0x2D ∧
    Nat.testBit (pmcr_update 0x28) 5 = true ∧
    Nat.testBit (pmcr_update 0x28) 3 = true ∧
    pmcr_update_documented 0x28 = 0x45 := by
  refine ⟨rfl, by decide, by decide, by decide, rfl, by decide, by decide, by decide⟩

/-- Claim C4: deactivation modifies only PMCNTENSET_EL0 and
PMUSERENR_EL0 on aarch64 (both written to zero) and only `scounteren`
on riscv64 (written to `0x2`, the fixed-rate-timer-only value); the
global control register PMCR_EL0, the event filter PMCCFILTR_EL0 and
the interrupt-mask register PMINTENCLR_EL1 are left unchanged by
deactivation — in particular the values they hold after activation
(`pmcr_update` of the read value, `BIT 27`, `BIT 31`) survive a
subsequent deactivation — and the riscv64 disable trace issues no SBI
request. -/
theorem claim4_disable_frame :
    ∀ (s : AArchRegs) (t : RiscvRegs),
      (aarch64_disable s).pmcr_el0 = s.pmcr_el0 ∧
      (aarch64_disable s).pmccfiltr_el0 = s.pmccfiltr_el0 ∧
      (aarch64_disable s).pmintenclr_el1 = s.pmintenclr_el1 ∧
      (aarch64_disable s).pmcntenset_el0 = 0 ∧
      (aarch64_disable s).pmuserenr_el0 = 0 ∧
      (aarch64_disable (aarch64_enable s)).pmcr_el0 = pmcr_update s.pmcr_el0 ∧
      (aarch64_disable (aarch64_enable s)).pmccfiltr_el0 = BIT 27 ∧
      (aarch64_disable (aarch64_enable s)).pmintenclr_el1 = BIT 31 ∧
      (riscv_disable t).scounteren = 2 ∧
      riscv_disable_trace.all (fun e => !isSbiCall e) = true := by
  intro s t
  exact ⟨rfl, rfl, rfl, rfl, rfl, rfl, rfl, rfl, rfl, rfl⟩

/-- Claim C5: on riscv64, the enable sequence first issues the SBI
request to start counter 0 with the re-initialization flag
(`SBI_PMU_START_FLAG_SET_INIT_VALUE`), and for every possible result
`r` of that request it logs the returned status pair and still writes
`scounteren` with all 32 low bits set (`GENMASK(31,0)`); a request
failure never aborts activation. -/
theorem claim5_riscv_enable_unconditional :
    ∀ (r : Int × Int) (t : RiscvRegs),
      (riscv_enable_trace r).head? =
        some (REvent.sbiCall SBI_EXT_PMU SBI_EXT_PMU_COUNTER_START
          0 1 SBI_PMU_START_FLAG_SET_INIT_VALUE 0 0 0) ∧
      (riscv_enable_trace r)[1]? = some (REvent.logSbiRet r.1 r.2) ∧
      (riscv_enable_trace r)[2]? =
        some (REvent.csrWrite CSR_SCOUNTEREN (2 ^ 32 - 1)) ∧
      (riscv_enable r t).scounteren = 2 ^ 32 - 1 ∧
      ((List.range 32).all fun i =>
        Nat.testBit (riscv_enable r t).scounteren i) = true := by
  intro r t
  refine ⟨rfl, rfl, rfl, rfl, ?_⟩
  have h : (riscv_enable r t).scounteren = 2 ^ 32 - 1 := rfl
  simp only [h]
  decide

/-- Claim C10: the sample comparator `cmp_u64` returns `-1`, `0`, `1`
exactly as the three-way unsigned comparison of its arguments (modelled
over `Nat`, where the comparison cannot overflow), it is antisymmetric
(`cmp_u64 a b = -cmp_u64 b a`), and sorting the sample buffer with it
yields a permutation of the buffer that is sorted in nondecreasing
order — equivalently, sorted with respect to `cmp_u64 · · ≤ 0`. -/
theorem claim10_cmp_u64_spec :
    ∀ a b : Nat,
      (cmp_u64 a b = -1 ↔ a < b) ∧
      (cmp_u64 a b = 0 ↔ a = b) ∧
      (cmp_u64 a b = 1 ↔ b < a) ∧
      cmp_u64 a b = -cmp_u64 b a ∧
      ∀ l : List Nat,
        (sortSamples l).Perm l ∧
        List.Sorted (· ≤ ·) (sortSamples l) ∧
        List.Sorted (fun x y => cmp_u64 x y ≤ 0) (sortSamples l) := by
  intro a b
  refine ⟨?_, ?_, ?_, ?_, fun l => ⟨List.perm_insertionSort _ l,
    List.sorted_insertionSort _ l, ?_⟩⟩
  · unfold cmp_u64; split_ifs with h1 h2
    · simp [h1]
    · simp [h2]
    · simp; omega
  · unfold cmp_u64; split_ifs with h1 h2
    · simp; omega
    · simp [h2]
    · simp; omega
  · unfold cmp_u64; split_ifs with h1 h2
    · simp; omega
    · simp; omega
    · simp; omega
  · unfold cmp_u64
    split_ifs <;> try norm_num
    all_goals omega
  · exact (List.sorted_insertionSort _ l).imp (fun hxy => by
      unfold cmp_u64
      split_ifs <;> try norm_num
      all_goals omega)

/-- Claim C7: a run with zero user arguments or two-or-more user
arguments (`argv` counts the program name, so `argv.length` is `argc`)
prints the usage line on standard error, exits with a nonzero status,
prints no result line and performs no measurement. -/
theorem claim7_usage_on_bad_argc :
    ∀ (argv : List String) (parse : String → Int) (d1 d2 d3 : Nat → Nat),
      argv.length = 1 ∨ 3 ≤ argv.length →
      (runDriver argv parse d1 d2 d3).err = [usageMsg] ∧
      (runDriver argv parse d1 d2 d3).exitCode ≠ 0 ∧
      (runDriver argv parse d1 d2 d3).out = [] := by
  intro argv parse d1 d2 d3 h
  have hne : argv.length ≠ 2 := by omega
  simp [runDriver, hne]

/-- Witness for claim C7 at the concrete invocation with no user
argument. -/
theorem claim7_usage_on_bad_argc_witness :
    (runDriver ["test_cycle"] (fun _ => 0) (fun _ => 0) (fun _ => 0)
      (fun _ => 0)).err = [usageMsg] ∧
    (runDriver ["test_cycle"] (fun _ => 0) (fun _ => 0) (fun _ => 0)
      (fun _ => 0)).exitCode ≠ 0 ∧
    (runDriver ["test_cycle"] (fun _ => 0) (fun _ => 0) (fun _ => 0)
      (fun _ => 0)).out = [] :=
  claim7_usage_on_bad_argc ["test_cycle"] (fun _ => 0) (fun _ => 0)
    (fun _ => 0) (fun _ => 0) (Or.inl rfl)

/-- Claim C8: every run with exactly one user argument exits with
status 0 and prints exactly three labelled cycles-per-operation lines
(32-bit, 64-bit and 128-bit-producing multiplications — the build is
modelled with `__int128` support) followed by exactly one parenthesized
byte line whose value is at most 255, and nothing on standard error. -/
theorem claim8_output_shape :
    ∀ (argv : List String) (parse : String → Int) (d1 d2 d3 : Nat → Nat),
      argv.length = 2 →
      (runDriver argv parse d1 d2 d3).exitCode = 0 ∧
      (runDriver argv parse d1 d2 d3).err = [] ∧
      ∃ q1 q2 q3 b,
        (runDriver argv parse d1 d2 d3).out =
          [OutLine.result "32x32->32 muls:" q1,
           OutLine.result "64x64->64 muls:" q2,
           OutLine.result "64x64->128 muls:" q3,
           OutLine.byteline b] ∧ b ≤ 255 := by
  intro argv parse d1 d2 d3 h
  have hne : ¬argv.length ≠ 2 := by omega
  unfold runDriver
  rw [if_neg hne]
  exact ⟨rfl, rfl, _, _, _, _, rfl, byteFold_le _⟩

/-- Witness for claim C8 at the concrete invocation with the single
argument "3". -/
theorem claim8_output_shape_witness :
    (runDriver ["test_cycle", "3"] (fun _ => 3) (fun _ => 0) (fun _ => 0)
      (fun _ => 0)).exitCode = 0 ∧
    (runDriver ["test_cycle", "3"] (fun _ => 3) (fun _ => 0) (fun _ => 0)
      (fun _ => 0)).err = [] ∧
    ∃ q1 q2 q3 b,
      (runDriver ["test_cycle", "3"] (fun _ => 3) (fun _ => 0) (fun _ => 0)
        (fun _ => 0)).out =
        [OutLine.result "32x32->32 muls:" q1,
         OutLine.result "64x64->64 muls:" q2,
         OutLine.result "64x64->128 muls:" q3,
         OutLine.byteline b] ∧ b ≤ 255 :=
  claim8_output_shape ["test_cycle", "3"] (fun _ => 3) (fun _ => 0)
    (fun _ => 0) (fun _ => 0) rfl

/-- Folding the measurement loop preserves the sample-buffer length. -/
theorem measure_foldl_length (delta : Nat → Nat) :
    ∀ (l : List Nat) (tt : List Nat),
      (l.foldl (measureStep delta) tt).length = tt.length := by
  intro l
  induction l with
  | nil => intro tt; rfl
  | cons i l ih =>
    intro tt
    rw [List.foldl_cons, ih]
    unfold measureStep
    split <;> simp

/-- After the first `n ≤ 120` outer iterations, slot `j` of the sample
buffer holds `delta (j + 20)` when iteration `j + 20` already ran, and
the initial value `0` otherwise. -/
theorem measure_foldl_get (delta : Nat → Nat) :
    ∀ n, n ≤ 120 → ∀ j, j < 100 →
      ((List.range n).foldl (measureStep delta) (List.replicate 100 0))[j]? =
        some (if j + 20 < n then delta (j + 20) else 0) := by
  intro n
  induction n with
  | zero =>
    intro _ j hj
    rw [List.range_zero, List.foldl_nil, List.getElem?_replicate, if_pos hj,
      if_neg (by omega)]
  | succ n ih =>
    intro hn j hj
    rw [List.range_succ, List.foldl_append, List.foldl_cons, List.foldl_nil]
    have hlen : ((List.range n).foldl (measureStep delta)
        (List.replicate 100 0)).length = 100 := by
      rw [measure_foldl_length]; simp
    by_cases h20 : 20 ≤ n
    · have hstep : measureStep delta
          ((List.range n).foldl (measureStep delta) (List.replicate 100 0)) n =
          ((List.range n).foldl (measureStep delta)
            (List.replicate 100 0)).set (n - 20) (delta n) := by
        unfold measureStep; rw [if_pos h20]
      rw [hstep, List.getElem?_set]
      by_cases hij : n - 20 = j
      · rw [if_pos hij, hlen, if_pos (by omega), if_pos (by omega)]
        have hj20 : j + 20 = n := by omega
        rw [hj20]
      · rw [if_neg hij, ih (by omega) j hj]
        simp only [show (j + 20 < n + 1) ↔ (j + 20 < n) from by omega]
    · have hstep : measureStep delta
          ((List.range n).foldl (measureStep delta) (List.replicate 100 0)) n =
          (List.range n).foldl (measureStep delta) (List.replicate 100 0) := by
        unfold measureStep; rw [if_neg h20]
      rw [hstep, ih (by omega) j hj]
      simp only [show (j + 20 < n + 1) ↔ (j + 20 < n) from by omega]

/-- The sample buffer after the full measurement loop holds, in order,
the deltas of outer iterations 20 to 119. -/
theorem measureLoop_eq (delta : Nat → Nat) :
    measureLoop delta = (List.range 100).map (fun j => delta (j + 20)) := by
  apply List.ext_getElem?
  intro j
  by_cases hj : j < 100
  · rw [show measureLoop delta =
        (List.range 120).foldl (measureStep delta) (List.replicate 100 0)
        from rfl]
    rw [measure_foldl_get delta 120 (by omega) j hj, if_pos (by omega)]
    simp [List.getElem?_map, List.getElem?_range, hj]
  · have h1 : (measureLoop delta).length = 100 := by
      rw [show measureLoop delta =
        (List.range 120).foldl (measureStep delta) (List.replicate 100 0)
        from rfl, measure_foldl_length]
      simp
    rw [List.getElem?_eq_none (by omega), List.getElem?_eq_none (by simp; omega)]

/-- Equivalently, the buffer is the list of the 120 per-iteration deltas
with the first 20 discarded. -/
theorem measureLoop_eq_drop (delta : Nat → Nat) :
    measureLoop delta = ((List.range 120).map delta).drop 20 := by
  rw [measureLoop_eq, show (120 : Nat) = 20 + 100 from rfl, List.range_add,
    List.map_append, List.drop_left' (by simp), List.map_map]
  simp [Function.comp, Nat.add_comm]

/-- Claim C2: the measurement loop runs 120 outer iterations collecting
one counter delta each, unconditionally discards the deltas of the first
20 iterations, stores the remaining 100 deltas in order in the sample
buffer, sorts them in nondecreasing order, and takes the element at
0-indexed rank 50 of the sorted 100-element sequence as the
representative total cost. -/
theorem claim2_measurement_reduction :
    ∀ delta : Nat → Nat,
      (measureLoop delta).length = 100 ∧
      measureLoop delta = ((List.range 120).map delta).drop 20 ∧
      measureLoop delta = (List.range 100).map (fun j => delta (j + 20)) ∧
      (sortSamples (measureLoop delta)).Perm (measureLoop delta) ∧
      (sortSamples (measureLoop delta)).length = 100 ∧
      List.Sorted (· ≤ ·) (sortSamples (measureLoop delta)) ∧
      harness delta = (sortSamples (measureLoop delta)).getD 50 0 := by
  intro delta
  have hlen : (measureLoop delta).length = 100 := by
    rw [show measureLoop delta =
      (List.range 120).foldl (measureStep delta) (List.replicate 100 0)
      from rfl, measure_foldl_length]
    simp
  refine ⟨hlen, measureLoop_eq_drop delta, measureLoop_eq delta,
    List.perm_insertionSort _ _, ?_, List.sorted_insertionSort _ _, rfl⟩
  exact ((List.perm_insertionSort _ _).length_eq).trans hlen

/-- Claim C6: each workload's reported cycles-per-operation value equals
the median total delta divided by the product of the inner repetition
count (1000) and the number of multiplications per inner iteration (20
for the 32-bit and 64-bit workloads, 8 for the 128-bit-producing one),
as an exact rational (the `double` division of the source divides by the
same constants 20000.0 and 8000.0). -/
theorem claim6_cycles_per_op :
    ∀ (argv : List String) (parse : String → Int) (d1 d2 d3 : Nat → Nat),
      argv.length = 2 →
      (runDriver argv parse d1 d2 d3).out[0]? =
        some (OutLine.result "32x32->32 muls:"
          ((harness d1 : ℚ) / (1000 * 20))) ∧
      (runDriver argv parse d1 d2 d3).out[1]? =
        some (OutLine.result "64x64->64 muls:"
          ((harness d2 : ℚ) / (1000 * 20))) ∧
      (runDriver argv parse d1 d2 d3).out[2]? =
        some (OutLine.result "64x64->128 muls:"
          ((harness d3 : ℚ) / (1000 * 8))) := by
  intro argv parse d1 d2 d3 h
  unfold runDriver
  rw [if_neg (by omega)]
  norm_num

/-- Witness for claim C6 at a concrete invocation. -/
theorem claim6_cycles_per_op_witness :
    (runDriver ["test_cycle", "3"] (fun _ => 3) (fun _ => 0) (fun _ => 0)
      (fun _ => 0)).out[0]? =
      some (OutLine.result "32x32->32 muls:"
        ((harness (fun _ => 0) : ℚ) / (1000 * 20))) ∧
    (runDriver ["test_cycle", "3"] (fun _ => 3) (fun _ => 0) (fun _ => 0)
      (fun _ => 0)).out[1]? =
      some (OutLine.result "64x64->64 muls:"
        ((harness (fun _ => 0) : ℚ) / (1000 * 20))) ∧
    (runDriver ["test_cycle", "3"] (fun _ => 3) (fun _ => 0) (fun _ => 0)
      (fun _ => 0)).out[2]? =
      some (OutLine.result "64x64->128 muls:"
        ((harness (fun _ => 0) : ℚ) / (1000 * 8))) :=
  claim6_cycles_per_op ["test_cycle", "3"] (fun _ => 3) (fun _ => 0)
    (fun _ => 0) (fun _ => 0) rfl

/-- Masking a 32-bit-truncated value with `0xFF` extracts its low byte. -/
theorem and255_mod (a : Nat) : a % M32 &&& 255 = a % 256 := by
  rw [show (255 : Nat) = 2 ^ 8 - 1 from rfl, Nat.and_pow_two_sub_one_eq_mod,
    M32, Nat.mod_mod_of_dvd a (by norm_num)]

/-- Claim C9: for every 64-bit value `v` of the final chain variable,
the parenthesized byte printed on the last output line equals the
exclusive-or of the eight bytes of `v`, and always lies in 0..255. -/
theorem claim9_byte_xor :
    ∀ v : Nat,
      byteFold v =
        (List.range 8).foldl (fun a i => a ^^^ v / 2 ^ (8 * i) % 256) 0 ∧
      byteFold v ≤ 255 := by
  intro v
  refine ⟨?_, byteFold_le v⟩
  unfold byteFold
  rw [show List.range 8 = [0, 1, 2, 3, 4, 5, 6, 7] from rfl]
  simp only [List.foldl_cons, List.foldl_nil]
  simp only [Nat.and_xor_distrib_right, and255_mod, Nat.zero_and, Nat.zero_xor,
    Nat.div_div_eq_div_mul]
  norm_num

/-- Invariants are preserved by function iteration. -/
theorem iterate_pred {α : Type} (f : α → α) (P : α → Prop)
    (hf : ∀ a, P a → P (f a)) (a : α) (ha : P a) : ∀ n, P (f^[n] a) := by
  intro n
  induction n with
  | zero => simpa using ha
  | succ n ih =>
    rw [Function.iterate_succ_apply']
    exact hf _ ih

/-- Unfolding of one iteration of the 128-bit-producing chain. -/
theorem steps128_succ (s n : Nat) :
    steps128 s (n + 1) =
      iter128 (entry128 s).1 (entry128 s).2 (steps128 s n) :=
  Function.iterate_succ_apply' _ _ _

/-- With seed 0 the 32-bit chain stays at (0, 0). -/
theorem steps32_zero (n : Nat) : steps32 0 n = (0, 0) := by
  show step32^[n] (warm32 0) = (0, 0)
  rw [show warm32 0 = (0, 0) from by decide]
  exact Function.iterate_fixed (by decide) n

/-- With seed 0 the 64-bit chain stays at (0, 0). -/
theorem steps64_zero (n : Nat) : steps64 0 n = (0, 0) := by
  show step64^[n] (warm64 (steps32 0 1200000)) = (0, 0)
  rw [steps32_zero 1200000, show warm64 (0, 0) = (0, 0) from by decide]
  exact Function.iterate_fixed (by decide) n

/-- With seed 0 the 128-bit-producing workload is entered at (0, 0). -/
theorem entry128_zero : entry128 0 = (0, 0) := by
  unfold entry128
  rw [show final64 0 = (0, 0) from steps64_zero 1200000]
  decide

/-- With seed 0 the 128-bit-producing chain stays at (0, 0). -/
theorem steps128_zero (n : Nat) : steps128 0 n = (0, 0) := by
  show (iter128 (entry128 0).1 (entry128 0).2)^[n] (entry128 0) = (0, 0)
  rw [entry128_zero]
  exact Function.iterate_fixed (by decide) n

/-- With seed 1 the 32-bit chain stays at (1, 1). -/
theorem steps32_one (n : Nat) : steps32 1 n = (1, 1) := by
  show step32^[n] (warm32 1) = (1, 1)
  rw [show warm32 1 = (1, 1) from by decide]
  exact Function.iterate_fixed (by decide) n

/-- With seed 1 the 64-bit chain stays at (1, 1). -/
theorem steps64_one (n : Nat) : steps64 1 n = (1, 1) := by
  show step64^[n] (warm64 (steps32 1 1200000)) = (1, 1)
  rw [steps32_one 1200000, show warm64 (1, 1) = (1, 1) from by decide]
  exact Function.iterate_fixed (by decide) n

/-- With seed 1 the 128-bit-producing workload is entered at (1, 1). -/
theorem entry128_one : entry128 1 = (1, 1) := by
  unfold entry128
  rw [show final64 1 = (1, 1) from steps64_one 1200000]
  decide

/-- With seed 1 the 128-bit-producing chain state collapses to (0, 0)
after the first inner iteration and stays there. -/
theorem steps128_one_succ (n : Nat) : steps128 1 (n + 1) = (0, 0) := by
  induction n with
  | zero =>
    rw [steps128_succ, show steps128 1 0 = entry128 1 from rfl, entry128_one]
    decide
  | succ n ih =>
    rw [steps128_succ, ih, entry128_one]
    decide

/-- Odd values are preserved by `uint32_t` multiplication. -/
theorem mul32_odd {a b : Nat} (ha : a % 2 = 1) (hb : b % 2 = 1) :
    mul32 a b % 2 = 1 := by
  unfold mul32
  rw [Nat.mod_mod_of_dvd _ (show (2 : Nat) ∣ M32 from ⟨2 ^ 31, by norm_num [M32]⟩),
    Nat.mul_mod, ha, hb]

/-- Odd values are preserved by `uint64_t` multiplication. -/
theorem mul64_odd {a b : Nat} (ha : a % 2 = 1) (hb : b % 2 = 1) :
    mul64 a b % 2 = 1 := by
  unfold mul64
  rw [Nat.mod_mod_of_dvd _ (show (2 : Nat) ∣ M64 from ⟨2 ^ 63, by norm_num [M64]⟩),
    Nat.mul_mod, ha, hb]

/-- Both components of the 32-bit chain state stay odd. -/
theorem step32_odd {p : Nat × Nat} (hp : p.1 % 2 = 1 ∧ p.2 % 2 = 1) :
    (step32 p).1 % 2 = 1 ∧ (step32 p).2 % 2 = 1 :=
  ⟨mul32_odd hp.1 hp.2, mul32_odd hp.2 (mul32_odd hp.1 hp.2)⟩

/-- Both components of the 64-bit chain state stay odd. -/
theorem step64_odd {p : Nat × Nat} (hp : p.1 % 2 = 1 ∧ p.2 % 2 = 1) :
    (step64 p).1 % 2 = 1 ∧ (step64 p).2 % 2 = 1 :=
  ⟨mul64_odd hp.1 hp.2, mul64_odd hp.2 (mul64_odd hp.1 hp.2)⟩

/-- With seed 3 the warmed-up 32-bit state is odd in both components. -/
theorem warm32_three_odd : (warm32 3).1 % 2 = 1 ∧ (warm32 3).2 % 2 = 1 := by
  have h : ∀ n, ((fun yy => mul32 yy (3 % M32))^[n] (3 % M32)) % 2 = 1 :=
    iterate_pred _ (fun a => a % 2 = 1)
      (fun a ha => mul32_odd ha (by decide)) _ (by decide)
  exact ⟨h 100, h 100⟩

/-- With seed 3 every 32-bit chain state is odd in both components. -/
theorem steps32_three_odd (n : Nat) :
    (steps32 3 n).1 % 2 = 1 ∧ (steps32 3 n).2 % 2 = 1 :=
  iterate_pred step32 (fun p => p.1 % 2 = 1 ∧ p.2 % 2 = 1)
    (fun _ hp => step32_odd hp) (warm32 3) warm32_three_odd n

/-- The 64-bit warm-up preserves oddness of the handed-over value. -/
theorem warm64_odd (p : Nat × Nat) (hp : p.1 % 2 = 1) :
    (warm64 p).1 % 2 = 1 ∧ (warm64 p).2 % 2 = 1 :=
  ⟨mul64_odd hp (mul64_odd hp hp), mul64_odd hp (mul64_odd hp hp)⟩

/-- With seed 3 every 64-bit chain state is odd in both components. -/
theorem steps64_three_odd (n : Nat) :
    (steps64 3 n).1 % 2 = 1 ∧ (steps64 3 n).2 % 2 = 1 :=
  iterate_pred step64 (fun p => p.1 % 2 = 1 ∧ p.2 % 2 = 1)
    (fun _ hp => step64_odd hp) (warm64 (steps32 3 1200000))
    (warm64_odd (steps32 3 1200000) (steps32_three_odd 1200000).1) n

/-- Claim C3 counterexample: with seed 1 the chain does not stay at 1
throughout — in the 128-bit-producing workload the very first statement
of the first inner iteration (`x64 ^= x64orig;` with `x64 = x64orig`)
drives the chain value to 0, which differs from 1. -/
theorem claim3_counterexample :
    0 ∈ iterVals128 (entry128 1).1 (entry128 1).2 (steps128 1 0) ∧
    (0 : Nat) ≠ 1 := by
  constructor
  · show 0 ∈ iterVals128 (entry128 1).1 (entry128 1).2 (entry128 1)
    rw [entry128_one]
    decide
  · decide

/-- Claim C3 (amended): with seed 0 every chain value in all three
workloads is 0 throughout (and the program's only divisions are by the
nonzero constants 20000.0 and 8000.0, so no division by zero can occur);
with seed 1 every chain value of the 32-bit and 64-bit workloads stays 1
throughout, while in the 128-bit-producing workload the chain takes only
the values 0 and 1 — the first inner iteration maps the state to (0, 0);
with seed 3 the chain takes varying nonzero values: every 32-bit and
64-bit chain value is odd, hence nonzero, and the 32-bit chain is not
constant. -/
theorem claim3_seed_behaviour :
    (∀ n, steps32 0 n = (0, 0)) ∧
    (∀ n, steps64 0 n = (0, 0)) ∧
    (∀ n, steps128 0 n = (0, 0)) ∧
    (∀ n, iterVals128 (entry128 0).1 (entry128 0).2 (steps128 0 n) =
      [0, 0, 0, 0, 0, 0, 0, 0, 0, 0]) ∧
    (∀ n, steps32 1 n = (1, 1)) ∧
    (∀ n, steps64 1 n = (1, 1)) ∧
    iterVals128 (entry128 1).1 (entry128 1).2 (steps128 1 0) =
      [0, 0, 0, 0, 0, 0, 0, 0, 0, 0] ∧
    (∀ n, iterVals128 (entry128 1).1 (entry128 1).2 (steps128 1 (n + 1)) =
      [1, 1, 0, 0, 0, 0, 0, 0, 0, 0]) ∧
    (∀ n, (steps32 3 n).1 % 2 = 1 ∧ (steps32 3 n).2 % 2 = 1 ∧
      (steps32 3 n).1 ≠ 0 ∧ (steps32 3 n).2 ≠ 0) ∧
    (∀ n, (steps64 3 n).1 % 2 = 1 ∧ (steps64 3 n).2 % 2 = 1 ∧
      (steps64 3 n).1 ≠ 0 ∧ (steps64 3 n).2 ≠ 0) ∧
    steps32 3 0 ≠ steps32 3 1 := by
  refine ⟨steps32_zero, steps64_zero, steps128_zero, ?_, steps32_one,
    steps64_one, ?_, ?_, ?_, ?_, ?_⟩
  · intro n
    rw [entry128_zero, steps128_zero n]
    decide
  · rw [show steps128 1 0 = entry128 1 from rfl, entry128_one]
    decide
  · intro n
    rw [steps128_one_succ n, entry128_one]
    decide
  · intro n
    obtain ⟨h1, h2⟩ := steps32_three_odd n
    exact ⟨h1, h2, by omega, by omega⟩
  · intro n
    obtain ⟨h1, h2⟩ := steps64_three_odd n
    exact ⟨h1, h2, by omega, by omega⟩
  · decide
